import Mathlib

/-!
Verification development for the NESO solar consumer ETL pipeline
(`neso_solar_consumer`): a shallow embedding of `fetch_data.py`,
`format_forecast.py`, `save_forecast.py` and `app.py`, together with
theorems settling the specification claims about them.

Modelling conventions:
* pandas DataFrames become ordered lists of rows; a missing value (NaN/NaT)
  is `Option.none`; numeric cells are rationals.
* network calls and the external database/file collaborators are modelled by
  explicit outcome parameters (`FetchOutcome`, `Except String Unit`), since
  the Python code wraps each of them in a `try`/`except`.
* a Python function that mutates its DataFrame argument in place is modelled
  by returning the caller-visible table alongside its result.
-/

namespace NesoSolar

/-- A calendar timestamp; after `dt.tz_localize("UTC")` every timestamp in the
pipeline is UTC, so the zone is implicit. -/
structure Timestamp where
  year : Nat
  month : Nat
  day : Nat
  hour : Nat
  minute : Nat
deriving DecidableEq, Repr

def isLeapYear (y : Nat) : Bool :=
  (y % 4 == 0 && y % 100 != 0) || (y % 400 == 0)

def daysInMonth (y m : Nat) : Nat :=
  if m == 2 then (if isLeapYear y then 29 else 28)
  else if m == 4 || m == 6 || m == 9 || m == 11 then 30
  else 31

def digitsToNat (l : List Char) : Nat :=
  l.foldl (fun a c => a * 10 + (c.toNat - 48)) 0

/-- Strict parse of the `%Y-%m-%d %H:%M` pattern used by both fetch paths
(`pd.to_datetime(..., format="%Y-%m-%d %H:%M", errors="coerce")`): sixteen
characters `YYYY-MM-DD HH:MM`, with calendar-valid month, day, hour and
minute; any other input coerces to a null (`none`, pandas `NaT`). -/
def parseTimestamp (s : String) : Option Timestamp :=
  match s.data with
  | [y1, y2, y3, y4, s1, m1, m2, s2, d1, d2, s3, h1, h2, s4, n1, n2] =>
    if (y1.isDigit && y2.isDigit && y3.isDigit && y4.isDigit
        && s1 == '-' && m1.isDigit && m2.isDigit && s2 == '-'
        && d1.isDigit && d2.isDigit && s3 == ' '
        && h1.isDigit && h2.isDigit && s4 == ':' && n1.isDigit && n2.isDigit) then
      let y := digitsToNat [y1, y2, y3, y4]
      let mo := digitsToNat [m1, m2]
      let d := digitsToNat [d1, d2]
      let h := digitsToNat [h1, h2]
      let n := digitsToNat [n1, n2]
      if 1 ≤ mo && mo ≤ 12 && 1 ≤ d && d ≤ daysInMonth y mo && h < 24 && n < 60 then
        some ⟨y, mo, d, h, n⟩
      else none
    else none
  | _ => none

/-- Whitespace for the purposes of `str.strip()`. -/
def isStripChar (c : Char) : Bool :=
  c == ' ' || c == '\t' || c == '\n' || c == '\r' || c == Char.ofNat 11 || c == Char.ofNat 12

/-- Python `s[:n]` (the `.str[:10]` slice): the first `n` characters, or all
of `s` when it is shorter. -/
def pySlice (n : Nat) (s : String) : String :=
  ⟨s.data.take n⟩

/-- Python `s.strip()` (the `.str.strip()` call): remove leading and trailing
whitespace. -/
def pyStrip (s : String) : String :=
  ⟨((s.data.dropWhile isStripChar).reverse.dropWhile isStripChar).reverse⟩

/-- One raw record of the upstream feed, as decoded from the downloaded CSV or
from the SQL-query JSON envelope: `DATE_GMT` and `TIME_GMT` are strings and
`EMBEDDED_SOLAR_FORECAST` is a numeric cell that may be missing (NaN). -/
structure RawRow where
  DATE_GMT : String
  TIME_GMT : String
  EMBEDDED_SOLAR_FORECAST : Option ℚ
deriving DecidableEq, Repr

/-- The `Datetime_GMT` cell computed for a raw row by both fetch paths: the
first 10 characters of `DATE_GMT`, a space, and the whitespace-trimmed
`TIME_GMT`, parsed with the exact `%Y-%m-%d %H:%M` pattern. -/
def rowTimestamp (r : RawRow) : Option Timestamp :=
  parseTimestamp (pySlice 10 r.DATE_GMT ++ " " ++ pyStrip r.TIME_GMT)

/-- A row after the column-assembly stage of either fetch path, before the
final `dropna`: both selected cells may still be null. -/
structure StagedRow where
  Datetime_GMT : Option Timestamp
  solar_forecast_kw : Option ℚ
deriving DecidableEq, Repr

/-- A row of the normalized output table `df[["Datetime_GMT",
"solar_forecast_kw"]].dropna()`: both cells are non-null. -/
structure NormRow where
  Datetime_GMT : Timestamp
  solar_forecast_kw : ℚ
deriving DecidableEq, Repr

/-- Column-assembly stage of `fetch_data` (listing/CSV path): build
`Datetime_GMT`, and set `solar_forecast_kw` to `EMBEDDED_SOLAR_FORECAST *
1000` (a null propagates through the multiplication). -/
def stage_api (r : RawRow) : StagedRow :=
  { Datetime_GMT := rowTimestamp r
    solar_forecast_kw := r.EMBEDDED_SOLAR_FORECAST.map (fun v => v * 1000) }

/-- Column-assembly stage of `fetch_data_using_sql` (SQL-query/JSON path):
build `Datetime_GMT` the same way, and obtain `solar_forecast_kw` by merely
renaming the `EMBEDDED_SOLAR_FORECAST` column (no unit conversion). -/
def stage_sql (r : RawRow) : StagedRow :=
  { Datetime_GMT := rowTimestamp r
    solar_forecast_kw := r.EMBEDDED_SOLAR_FORECAST }

/-- Whether a staged row survives `dropna`: both selected cells non-null. -/
def StagedRow.complete (r : StagedRow) : Bool :=
  r.Datetime_GMT.isSome && r.solar_forecast_kw.isSome

/-- The final `df[["Datetime_GMT", "solar_forecast_kw"]].dropna()` of both
fetch paths: keep exactly the rows whose two selected cells are non-null, in
source order. -/
def dropna (rows : List StagedRow) : List NormRow :=
  rows.filterMap (fun r =>
    match r.Datetime_GMT, r.solar_forecast_kw with
    | some t, some v => some ⟨t, v⟩
    | _, _ => none)

/-- Row processing of `fetch_data` applied to the decoded raw records. -/
def fetch_data_rows (rows : List RawRow) : List NormRow :=
  dropna (rows.map stage_api)

/-- Row processing of `fetch_data_using_sql` applied to the decoded raw
records. -/
def fetch_data_using_sql_rows (rows : List RawRow) : List NormRow :=
  dropna (rows.map stage_sql)

/-- Outcome of the network and payload-decoding phase that the `try` block of
each fetch function performs before row processing: either the decoded raw
records, or one of the three caught failure classes (`urllib.error.URLError`,
`KeyError` on the envelope structure, any other `Exception`). -/
inductive FetchOutcome where
  | ok (rows : List RawRow)
  | urlError (msg : String)
  | keyError
  | otherError (msg : String)
deriving DecidableEq, Repr

def FetchOutcome.isOk : FetchOutcome → Bool
  | .ok _ => true
  | _ => false

/-- `fetch_data`: on a successful fetch, process the rows; every caught
failure falls through to `return pd.DataFrame()`, the empty table. -/
def fetch_data (o : FetchOutcome) : List NormRow :=
  match o with
  | .ok rows => fetch_data_rows rows
  | .urlError _ => []
  | .keyError => []
  | .otherError _ => []

/-- `fetch_data_using_sql`: same failure contract, SQL-path row processing. -/
def fetch_data_using_sql (o : FetchOutcome) : List NormRow :=
  match o with
  | .ok rows => fetch_data_using_sql_rows rows
  | .urlError _ => []
  | .keyError => []
  | .otherError _ => []

/-- A cell value, for talking about tables schematically (column names paired
with values). -/
inductive FieldValue where
  | t (ts : Timestamp)
  | q (x : ℚ)
  | s (v : String)
deriving DecidableEq, Repr

/-- The configured target columns of the normalized table. -/
def targetColumns : List String := ["Datetime_GMT", "solar_forecast_kw"]

/-- The normalized row viewed as named columns. -/
def NormRow.fields (r : NormRow) : List (String × FieldValue) :=
  [("Datetime_GMT", .t r.Datetime_GMT), ("solar_forecast_kw", .q r.solar_forecast_kw)]

/-- Metadata that `format_forecast` reads from the database session (model
record, last-input-update timestamp, location) plus the creation instant
`datetime.now(tz=timezone.utc)`. -/
structure Metadata where
  model_name : String
  model_version : String
  forecast_creation_time : Timestamp
  location : String
  input_data_last_updated : Timestamp
deriving DecidableEq, Repr

/-- A row of the table returned by `format_forecast`: the kW column has been
replaced by `solar_forecast_mw` and the metadata columns appended. -/
structure FormattedRow where
  Datetime_GMT : Timestamp
  solar_forecast_mw : ℚ
  model_name : String
  model_version : String
  forecast_creation_time : Timestamp
  location : String
  input_data_last_updated : Timestamp
deriving DecidableEq, Repr

/-- The formatted row viewed as named columns (`solar_forecast_kw` was dropped
by `data.drop(columns=["solar_forecast_kw"], inplace=True)`). -/
def FormattedRow.fields (r : FormattedRow) : List (String × FieldValue) :=
  [("Datetime_GMT", .t r.Datetime_GMT),
   ("solar_forecast_mw", .q r.solar_forecast_mw),
   ("model_name", .s r.model_name),
   ("model_version", .s r.model_version),
   ("forecast_creation_time", .t r.forecast_creation_time),
   ("location", .s r.location),
   ("input_data_last_updated", .t r.input_data_last_updated)]

/-- `format_forecast`: drop rows with a missing `Datetime_GMT` or
`solar_forecast_kw` cell, re-coerce `Datetime_GMT` to a UTC datetime (the
identity on an already-typed timestamp), derive `solar_forecast_mw =
solar_forecast_kw / 1000`, drop the kW column, and append the metadata
columns. The required-columns check (`ValueError` when `Datetime_GMT` or
`solar_forecast_kw` is absent) is discharged by the input type. -/
def format_forecast (data : List StagedRow) (meta : Metadata) : List FormattedRow :=
  (dropna data).map (fun r =>
    { Datetime_GMT := r.Datetime_GMT
      solar_forecast_mw := r.solar_forecast_kw / 1000
      model_name := meta.model_name
      model_version := meta.model_version
      forecast_creation_time := meta.forecast_creation_time
      location := meta.location
      input_data_last_updated := meta.input_data_last_updated })

/-- Re-embed a normalized row as a staged (possibly-null) row, the way an
already-normalized table is when fed back through the normalizing transform. -/
def NormRow.toStaged (r : NormRow) : StagedRow :=
  ⟨some r.Datetime_GMT, some r.solar_forecast_kw⟩

/-- `pd.to_datetime(..., utc=True)` applied to an already UTC-typed timestamp
column: the identity coercion. -/
def to_datetime_utc (t : Option Timestamp) : Option Timestamp := t

/-- A generic table row as a list of named cells, for the save functions,
which add, rename and drop columns of the caller's DataFrame in place. -/
abbrev GenRow := List (String × FieldValue)

/-- `DataFrame.rename(columns=m)` on one row: every key is replaced by its
image under the mapping when it has one. -/
def renameKeys (m : List (String × String)) (r : GenRow) : GenRow :=
  r.map (fun kv =>
    match m.lookup kv.1 with
    | some n => (n, kv.2)
    | none => kv)

/-- The column renaming applied by `save_generation_to_site_db`. -/
def siteDbRenames : List (String × String) :=
  [("solar_generation_kw", "power_kw"), ("target_datetime_utc", "start_utc")]

/-- `pd.to_datetime` applied to one cell of the `start_utc` column: a cell
already holding a timestamp is unchanged; a string cell is parsed and
replaced by the timestamp value. The pipeline's tables carry datetimes in the
`YYYY-MM-DD HH:MM` shape, so parsing is modelled by `parseTimestamp`; a
string `pd.to_datetime` cannot parse makes it raise inside the `try` block
(logged and re-raised), and no theorem below concerns that case, so such a
cell is left in place here. -/
def cellToDatetime (v : FieldValue) : FieldValue :=
  match v with
  | .s str =>
    match parseTimestamp str with
    | some ts => .t ts
    | none => .s str
  | other => other

/-- The in-place `generation_data["start_utc"] = pd.to_datetime(
generation_data["start_utc"])` step on one row: every `start_utc` cell is
re-coerced to a datetime value, all other cells are untouched. -/
def coerceStartUtc (r : GenRow) : GenRow :=
  r.map (fun kv => if kv.1 = "start_utc" then (kv.1, cellToDatetime kv.2) else kv)

/-- `save_generation_to_site_db`: an empty table returns silently; a country
other than `"nl"` raises an `Exception`; otherwise the caller's DataFrame is
mutated in place — a `site_uuid` column is assigned, the columns are renamed
to the database schema, and the `start_utc` column is re-coerced with
`pd.to_datetime` — before `insert_generation_values` runs (its failure is
logged and re-raised). Returns the caller-visible table together with the
call's result. -/
def save_generation_to_site_db (generation_data : List GenRow) (country : String)
    (site_uuid : String) (insertResult : Except String Unit) :
    List GenRow × Except String Unit :=
  if generation_data.isEmpty then (generation_data, .ok ())
  else if country ≠ "nl" then
    (generation_data, .error "Only NL generation data is supported when saving (atm).")
  else
    let withSite := generation_data.map (fun r => r ++ [("site_uuid", FieldValue.s site_uuid)])
    let renamed := withSite.map (renameKeys siteDbRenames)
    let coerced := renamed.map coerceStartUtc
    (coerced, insertResult)

/-- `save_forecasts_to_db`: an empty forecast list returns silently; otherwise
the external `save` collaborator runs and its failure is logged and re-raised
(`except Exception as e: ... raise e`). -/
def save_forecasts_to_db {α : Type} (forecasts : List α)
    (saveResult : Except String Unit) : Except String Unit :=
  if forecasts.isEmpty then .ok ()
  else
    match saveResult with
    | .ok _ => .ok ()
    | .error e => .error e

/-- `save_forecasts_to_csv`: an empty table returns silently; a missing
directory raises `ValueError`; otherwise the caller's DataFrame is mutated in
place by dropping the `_sa_instance_state` column (`errors="ignore"`) and the
write result is re-raised on failure. Returns the caller-visible table
together with the call's result. -/
def save_forecasts_to_csv (forecasts : List GenRow) (csv_dir : String)
    (writeResult : Except String Unit) : List GenRow × Except String Unit :=
  if forecasts.isEmpty then (forecasts, .ok ())
  else if csv_dir = "" then
    (forecasts, .error "CSV directory is not provided for CSV saving.")
  else
    let cleaned := forecasts.map (fun r => r.filter (fun kv => kv.1 ≠ "_sa_instance_state"))
    (cleaned, writeResult)

/-- How a pipeline run of `app` ended when no exception escaped. -/
inductive AppResult where
  | noData
  | noForecasts
  | saved
deriving DecidableEq, Repr

/-- `app`: fetch, then exit early when the fetched table is empty; format,
then exit early when no forecasts were generated; save, re-raising any
failure (`except Exception as e: ... raise`). The format and save steps are
passed as functions so that "never invoked" is expressible. -/
def app {φ : Type} (forecast_data : List NormRow)
    (formatStep : List NormRow → List φ)
    (saveStep : List φ → Except String Unit) : Except String AppResult :=
  if forecast_data.isEmpty then .ok .noData
  else
    let forecasts := formatStep forecast_data
    if forecasts.isEmpty then .ok .noForecasts
    else
      match saveStep forecasts with
      | .ok _ => .ok .saved
      | .error e => .error e

/-! Helper lemmas about `dropna`. -/

theorem dropna_cons (a : StagedRow) (l : List StagedRow) :
    dropna (a :: l) =
      match a.Datetime_GMT, a.solar_forecast_kw with
      | some t, some v => ⟨t, v⟩ :: dropna l
      | _, _ => dropna l := by
  rcases a with ⟨_ | t, _ | v⟩ <;> rfl

theorem dropna_length_le (rows : List StagedRow) : (dropna rows).length ≤ rows.length :=
  List.length_filterMap_le _ _

theorem dropna_length_eq_iff (rows : List StagedRow) :
    (dropna rows).length = rows.length ↔ ∀ r ∈ rows, r.complete = true := by
  induction rows with
  | nil => simp [dropna]
  | cons a l ih =>
    have hle := dropna_length_le l
    rcases ha : a.Datetime_GMT with _ | t <;> rcases hv : a.solar_forecast_kw with _ | v <;>
        rw [dropna_cons, ha, hv] <;>
      simp [StagedRow.complete, ha, hv, ih]
    all_goals omega


theorem stage_api_complete (r : RawRow) :
    (stage_api r).complete
      = ((rowTimestamp r).isSome && r.EMBEDDED_SOLAR_FORECAST.isSome) := by
  rcases h : r.EMBEDDED_SOLAR_FORECAST with _ | v <;>
    simp [stage_api, StagedRow.complete, h]

theorem stage_sql_complete (r : RawRow) :
    (stage_sql r).complete
      = ((rowTimestamp r).isSome && r.EMBEDDED_SOLAR_FORECAST.isSome) := rfl

theorem dropna_map_toStaged (t : List NormRow) :
    dropna (t.map NormRow.toStaged) = t := by
  induction t with
  | nil => rfl
  | cons a l ih => simpa [dropna, NormRow.toStaged] using ih

theorem coerceStartUtc_map_fst (r : GenRow) :
    (coerceStartUtc r).map Prod.fst = r.map Prod.fst := by
  induction r with
  | nil => rfl
  | cons kv l ih =>
    by_cases hk : kv.1 = "start_utc" <;> simpa [coerceStartUtc, hk] using ih

theorem siteDb_row_columns (uuid : String) (row : GenRow) :
    (coerceStartUtc (renameKeys siteDbRenames
        (row ++ [("site_uuid", FieldValue.s uuid)]))).map Prod.fst
      = (renameKeys siteDbRenames row).map Prod.fst ++ ["site_uuid"] := by
  rw [coerceStartUtc_map_fst]
  simp [renameKeys, siteDbRenames, List.lookup]

/-! Claim theorems. -/

/-- Raw record exhibiting the divergence of the two fetch paths. -/
def rawC1 : RawRow := ⟨"2024-01-01T00:00:00", "00:30", some 5⟩

/-- C1: the claim states that `fetch_data` (listing/CSV) and
`fetch_data_using_sql` (SQL-query/JSON), run over the same raw records,
return identical tables. This is false on the code: over the single raw
record `rawC1` the listing path multiplies the forecast by 1000
(`df["EMBEDDED_SOLAR_FORECAST"] * 1000`) while the SQL path only renames the
column, so the produced rows carry 5000 and 5 respectively — the repository's
own `test_data_consistency` asserts they are equal. -/
theorem c1_fetch_paths_diverge :
    fetch_data_rows [rawC1] = [⟨⟨2024, 1, 1, 0, 30⟩, 5000⟩]
    ∧ fetch_data_using_sql_rows [rawC1] = [⟨⟨2024, 1, 1, 0, 30⟩, 5⟩]
    ∧ fetch_data_rows [rawC1] ≠ fetch_data_using_sql_rows [rawC1] := by
  have h : rowTimestamp rawC1 = some ⟨2024, 1, 1, 0, 30⟩ := by decide
  have hv : rawC1.EMBEDDED_SOLAR_FORECAST = some 5 := rfl
  refine ⟨?_, ?_, ?_⟩ <;>
    simp [fetch_data_rows, fetch_data_using_sql_rows, dropna, stage_api, stage_sql, h, hv]
  all_goals norm_num

/-- C2: for every raw row (at any index of any batch), both fetch paths
assemble the output timestamp cell as
`parseTimestamp` of (first 10 characters of the date field) ++ " " ++
(stripped time field) — a null when the parse fails — and the staging step
keeps every row of the batch, so one row's parse failure never aborts the
rest. -/
theorem c2_timestamp_assembly (rows : List RawRow) (i : Nat) (h : i < rows.length)
    (ha : i < (rows.map stage_api).length) (hs : i < (rows.map stage_sql).length) :
    ((rows.map stage_api).get ⟨i, ha⟩).Datetime_GMT
        = parseTimestamp
            (pySlice 10 (rows.get ⟨i, h⟩).DATE_GMT ++ " " ++ pyStrip (rows.get ⟨i, h⟩).TIME_GMT)
    ∧ ((rows.map stage_sql).get ⟨i, hs⟩).Datetime_GMT
        = parseTimestamp
            (pySlice 10 (rows.get ⟨i, h⟩).DATE_GMT ++ " " ++ pyStrip (rows.get ⟨i, h⟩).TIME_GMT)
    ∧ (rows.map stage_api).length = rows.length
    ∧ (rows.map stage_sql).length = rows.length := by
  refine ⟨?_, ?_, by simp, by simp⟩ <;>
    simp [List.get_eq_getElem, List.getElem_map, stage_api, stage_sql, rowTimestamp]

/-- Batch with a well-formed first row and an unparseable second row. -/
def rowsC2 : List RawRow :=
  [⟨"2024-01-01T00:00:00", "00:30", some 5⟩, ⟨"2024-01-01T00:00:00", "xx:xx", some 6⟩]

/-- Witness for C2, at the unparseable second row of `rowsC2`. -/
theorem c2_timestamp_assembly_witness :
    ((rowsC2.map stage_api).get ⟨1, by decide⟩).Datetime_GMT
        = parseTimestamp
            (pySlice 10 (rowsC2.get ⟨1, by decide⟩).DATE_GMT
              ++ " " ++ pyStrip (rowsC2.get ⟨1, by decide⟩).TIME_GMT)
    ∧ ((rowsC2.map stage_sql).get ⟨1, by decide⟩).Datetime_GMT
        = parseTimestamp
            (pySlice 10 (rowsC2.get ⟨1, by decide⟩).DATE_GMT
              ++ " " ++ pyStrip (rowsC2.get ⟨1, by decide⟩).TIME_GMT)
    ∧ (rowsC2.map stage_api).length = rowsC2.length
    ∧ (rowsC2.map stage_sql).length = rowsC2.length :=
  c2_timestamp_assembly rowsC2 1 (by decide) (by decide) (by decide)

/-- C3: for every input row sequence, on both fetch paths, every output row's
column set is exactly the configured target columns (`Datetime_GMT`,
`solar_forecast_kw`), the output row count is at most the input row count,
and the counts are equal exactly when every input row has a parseable
timestamp and a non-null measurement value. -/
theorem c3_normalized_shape (rows : List RawRow) :
    (∀ nr ∈ fetch_data_rows rows, nr.fields.map Prod.fst = targetColumns)
    ∧ (∀ nr ∈ fetch_data_using_sql_rows rows, nr.fields.map Prod.fst = targetColumns)
    ∧ (fetch_data_rows rows).length ≤ rows.length
    ∧ (fetch_data_using_sql_rows rows).length ≤ rows.length
    ∧ ((fetch_data_rows rows).length = rows.length ↔
        ∀ r ∈ rows, (rowTimestamp r).isSome ∧ r.EMBEDDED_SOLAR_FORECAST.isSome)
    ∧ ((fetch_data_using_sql_rows rows).length = rows.length ↔
        ∀ r ∈ rows, (rowTimestamp r).isSome ∧ r.EMBEDDED_SOLAR_FORECAST.isSome) := by
  have hlena : (rows.map stage_api).length = rows.length := by simp
  have hlens : (rows.map stage_sql).length = rows.length := by simp
  refine ⟨fun nr _ => rfl, fun nr _ => rfl, ?_, ?_, ?_, ?_⟩
  · exact le_of_le_of_eq (dropna_length_le _) hlena
  · exact le_of_le_of_eq (dropna_length_le _) hlens
  · rw [fetch_data_rows, ← hlena, dropna_length_eq_iff]
    simp [stage_api_complete]
  · rw [fetch_data_using_sql_rows, ← hlens, dropna_length_eq_iff]
    simp [stage_sql_complete]

/-- Witness for C3 (vacuously hypothesis-free; instantiated at `rowsC2`,
whose second row has an unparseable timestamp). -/
theorem c3_normalized_shape_witness :
    (fetch_data_rows rowsC2).length ≤ rowsC2.length
    ∧ ((fetch_data_rows rowsC2).length = rowsC2.length ↔
        ∀ r ∈ rowsC2, (rowTimestamp r).isSome ∧ r.EMBEDDED_SOLAR_FORECAST.isSome) :=
  ⟨(c3_normalized_shape rowsC2).2.2.1, (c3_normalized_shape rowsC2).2.2.2.2.1⟩

/-- C4: every fetch outcome other than a successful fetch-and-decode — the
caught `URLError`, `KeyError` and generic `Exception` branches — makes both
fetch functions return the empty table instead of raising. -/
theorem c4_fetch_failures_yield_empty (o : FetchOutcome) (h : o.isOk = false) :
    fetch_data o = [] ∧ fetch_data_using_sql o = [] := by
  cases o <;> simp_all [fetch_data, fetch_data_using_sql, FetchOutcome.isOk]

/-- Witness for C4, at the `KeyError` outcome. -/
theorem c4_fetch_failures_yield_empty_witness :
    fetch_data .keyError = [] ∧ fetch_data_using_sql .keyError = [] :=
  c4_fetch_failures_yield_empty .keyError rfl

/-- C5: a failure raised by a sink operation is never swallowed: with a
non-empty payload, `save_forecasts_to_db` re-raises the database save error,
`save_forecasts_to_csv` re-raises the file write error, and `app` aborts the
run with the save step's error. -/
theorem c5_sink_failures_propagate {α φ : Type} (forecasts : List α) (msg : String)
    (h : forecasts ≠ []) (csvTable : List GenRow) (csv_dir : String)
    (h2 : csvTable ≠ []) (h3 : csv_dir ≠ "") (fetched : List NormRow)
    (formatStep : List NormRow → List φ) (h4 : fetched ≠ [])
    (h5 : formatStep fetched ≠ []) :
    save_forecasts_to_db forecasts (.error msg) = .error msg
    ∧ (save_forecasts_to_csv csvTable csv_dir (.error msg)).2 = .error msg
    ∧ app fetched formatStep (fun _ => .error msg) = .error msg := by
  refine ⟨?_, ?_, ?_⟩
  · simp [save_forecasts_to_db, h]
  · simp [save_forecasts_to_csv, h2, h3]
  · simp [app, h4, h5]

/-- Concrete one-row generation table used by several witnesses. -/
def genTableW : List GenRow :=
  [[("solar_generation_kw", FieldValue.s "5"),
    ("target_datetime_utc", FieldValue.s "2024-01-01 00:30")]]

/-- Witness for C5: one forecast, one CSV row, one fetched row, failing sinks. -/
theorem c5_sink_failures_propagate_witness :
    save_forecasts_to_db [()] (.error "db down") = .error "db down"
    ∧ (save_forecasts_to_csv genTableW "/data" (.error "db down")).2 = .error "db down"
    ∧ app [⟨⟨2024, 1, 1, 0, 30⟩, 5000⟩] (fun t => t) (fun _ => .error "db down")
        = .error "db down" :=
  c5_sink_failures_propagate [()] "db down" (by simp) genTableW "/data"
    (by simp [genTableW]) (by simp) [⟨⟨2024, 1, 1, 0, 30⟩, 5000⟩] (fun t => t)
    (by simp) (by simp)

/-- C6: when the fetch step returns an empty table, `app` exits early with the
no-data outcome — a normal return, not an error — and the format and save
steps are never invoked: the run's result is the same whatever those steps
would do. -/
theorem c6_empty_fetch_short_circuits {φ : Type} (forecast_data : List NormRow)
    (h : forecast_data = []) (formatStep f2 : List NormRow → List φ)
    (saveStep s2 : List φ → Except String Unit) :
    app forecast_data formatStep saveStep = .ok .noData
    ∧ app forecast_data formatStep saveStep = app forecast_data f2 s2 := by
  subst h
  simp [app]

/-- Witness for C6, with two save steps that differ (one fails, one does not). -/
theorem c6_empty_fetch_short_circuits_witness :
    app ([] : List NormRow) (fun t => t) (fun _ => .error "never run") = .ok .noData
    ∧ app ([] : List NormRow) (fun t => t) (fun _ => .error "never run")
        = app [] (fun _ => ([] : List NormRow)) (fun _ => .ok ()) :=
  c6_empty_fetch_short_circuits [] rfl (fun t => t) (fun _ => []) (fun _ => .error "never run")
    (fun _ => .ok ())

/-- C7: at every row of the table returned by `format_forecast`, the derived
measurement `solar_forecast_mw` equals the corresponding surviving input
row's `solar_forecast_kw` divided by 1000, and the superseded
`solar_forecast_kw` column is absent from the returned table's column set. -/
theorem c7_unit_derivation (data : List StagedRow) (meta : Metadata) (i : Nat)
    (h : i < (format_forecast data meta).length) (h2 : i < (dropna data).length) :
    ((format_forecast data meta).get ⟨i, h⟩).solar_forecast_mw
        = ((dropna data).get ⟨i, h2⟩).solar_forecast_kw / 1000
    ∧ "solar_forecast_kw"
        ∉ (((format_forecast data meta).get ⟨i, h⟩).fields.map Prod.fst) := by
  constructor
  · simp [List.get_eq_getElem, format_forecast, List.getElem_map]
  · simp [FormattedRow.fields]

/-- Metadata record used by witnesses. -/
def metaW : Metadata :=
  ⟨"neso-solar-forecast", "0.1.0", ⟨2024, 1, 1, 12, 0⟩, "National", ⟨2024, 1, 1, 11, 0⟩⟩

/-- Witness for C7, on a one-row staged table. -/
theorem c7_unit_derivation_witness :
    ((format_forecast [⟨some ⟨2024, 1, 1, 0, 30⟩, some 5000⟩] metaW).get ⟨0, by decide⟩).solar_forecast_mw
        = ((dropna [⟨some ⟨2024, 1, 1, 0, 30⟩, some 5000⟩]).get ⟨0, by decide⟩).solar_forecast_kw / 1000
    ∧ "solar_forecast_kw"
        ∉ (((format_forecast [⟨some ⟨2024, 1, 1, 0, 30⟩, some 5000⟩] metaW).get
              ⟨0, by decide⟩).fields.map Prod.fst) :=
  c7_unit_derivation [⟨some ⟨2024, 1, 1, 0, 30⟩, some 5000⟩] metaW 0 (by decide) (by decide)

/-- C8: the normalizing transform is idempotent: fed an already-normalized
table (re-embedded as raw input with the identity column mapping and no
derivation, so only the timestamp re-coercion and the null-drop apply), it
returns the table unchanged; equivalently, dropping nulls twice equals
dropping them once. -/
theorem c8_normalize_idempotent (t : List NormRow) (rows : List StagedRow) :
    dropna ((t.map NormRow.toStaged).map
        (fun r => { r with Datetime_GMT := to_datetime_utc r.Datetime_GMT })) = t
    ∧ dropna ((dropna rows).map NormRow.toStaged) = dropna rows := by
  constructor
  · have : (t.map NormRow.toStaged).map
        (fun r => { r with Datetime_GMT := to_datetime_utc r.Datetime_GMT })
          = t.map NormRow.toStaged := by
      simp [to_datetime_utc]
    rw [this, dropna_map_toStaged]
  · rw [dropna_map_toStaged]

/-- C9 claims a table is immutable once returned, i.e. no later pipeline
operation mutates the rows or columns of a table its caller passed in. This
is false on the code: `save_generation_to_site_db` assigns a `site_uuid`
column, renames columns, and re-coerces the `start_utc` cells of the
caller's DataFrame in place (`inplace=True` / in-place column assignment),
so on a concrete one-row table the caller-visible table after the call
differs from the one passed in. -/
theorem c9_counterexample :
    (save_generation_to_site_db genTableW "nl" "site-1" (.ok ())).1 ≠ genTableW := by
  decide

/-- C9 amended: the sink operations mutate the caller's table in place —
`save_generation_to_site_db` (for country `"nl"`) appends a `site_uuid`
column to every row, renames `solar_generation_kw` to `power_kw` and
`target_datetime_utc` to `start_utc`, and re-coerces every `start_utc` cell
with `pd.to_datetime` (replacing a string datetime cell by its timestamp
value), and `save_forecasts_to_csv` drops the `_sa_instance_state` column —
while preserving the row count, and with the resulting column names being
exactly the renamed input columns plus `site_uuid`. -/
theorem c9_sinks_mutate_in_place (t : List GenRow) (uuid : String)
    (r w : Except String Unit) (h : t ≠ []) (dir : String) (h2 : dir ≠ "") :
    (save_generation_to_site_db t "nl" uuid r).1
        = t.map (fun row =>
            coerceStartUtc (renameKeys siteDbRenames (row ++ [("site_uuid", FieldValue.s uuid)])))
    ∧ (save_generation_to_site_db t "nl" uuid r).1.length = t.length
    ∧ ((save_generation_to_site_db t "nl" uuid r).1.map (fun row => row.map Prod.fst))
        = t.map (fun row => (renameKeys siteDbRenames row).map Prod.fst ++ ["site_uuid"])
    ∧ (save_forecasts_to_csv t dir w).1
        = t.map (fun row => row.filter (fun kv => kv.1 ≠ "_sa_instance_state")) := by
  refine ⟨?_, ?_, ?_, ?_⟩
  · simp [save_generation_to_site_db, h]
  · simp [save_generation_to_site_db, h]
  · simp [save_generation_to_site_db, h, siteDb_row_columns]
  · simp [save_forecasts_to_csv, h, h2]

/-- Witness for the amended C9, on the concrete table `genTableW`. -/
theorem c9_sinks_mutate_in_place_witness :
    (save_generation_to_site_db genTableW "nl" "site-1" (.ok ())).1
        = genTableW.map (fun row =>
            coerceStartUtc (renameKeys siteDbRenames (row ++ [("site_uuid", FieldValue.s "site-1")])))
    ∧ (save_generation_to_site_db genTableW "nl" "site-1" (.ok ())).1.length = genTableW.length
    ∧ ((save_generation_to_site_db genTableW "nl" "site-1" (.ok ())).1.map
          (fun row => row.map Prod.fst))
        = genTableW.map (fun row => (renameKeys siteDbRenames row).map Prod.fst ++ ["site_uuid"])
    ∧ (save_forecasts_to_csv genTableW "/data" (.ok ())).1
        = genTableW.map (fun row => row.filter (fun kv => kv.1 ≠ "_sa_instance_state")) :=
  c9_sinks_mutate_in_place genTableW "site-1" (.ok ()) (.ok ())
    (by simp [genTableW]) "/data" (by simp)

/-- Concrete one-row generation table for the invalid-country claim. -/
def genTableC10 : List GenRow := [[("solar_generation_kw", FieldValue.s "7")]]

/-- C10 claims that for a non-empty generation table and a country other than
`"nl"`, `save_generation_to_site_db` silently returns `None` rather than
raising. This is false on the code: with the one-row table `genTableC10` and
country `"uk"` the function raises
`Exception("Only NL generation data is supported when saving (atm).")`
instead of returning silently. -/
theorem c10_counterexample :
    (save_generation_to_site_db genTableC10 "uk" "site-1" (.ok ())).2
        = .error "Only NL generation data is supported when saving (atm)."
    ∧ (save_generation_to_site_db genTableC10 "uk" "site-1" (.ok ())).2 ≠ .ok () := by
  have h1 : (save_generation_to_site_db genTableC10 "uk" "site-1" (.ok ())).2
      = .error "Only NL generation data is supported when saving (atm)." := rfl
  exact ⟨h1, by rw [h1]; simp⟩

/-- C10 amended: `save_generation_to_site_db` returns silently (`None`) only
when the generation table is empty — for any country; for every non-empty
table with a country other than `"nl"` it raises an `Exception` rather than
returning silently, leaving the table untouched. -/
theorem c10_non_nl_raises (t t2 : List GenRow) (c u : String) (r : Except String Unit)
    (h : t ≠ []) (hc : c ≠ "nl") (h2 : t2 = []) :
    (save_generation_to_site_db t c u r).2
        = .error "Only NL generation data is supported when saving (atm)."
    ∧ (save_generation_to_site_db t c u r).1 = t
    ∧ (save_generation_to_site_db t2 c u r).2 = .ok () := by
  subst h2
  refine ⟨?_, ?_, rfl⟩ <;> simp [save_generation_to_site_db, h, hc]

/-- Witness for the amended C10, at `genTableC10` with country `"uk"`. -/
theorem c10_non_nl_raises_witness :
    (save_generation_to_site_db genTableC10 "uk" "site-1" (.ok ())).2
        = .error "Only NL generation data is supported when saving (atm)."
    ∧ (save_generation_to_site_db genTableC10 "uk" "site-1" (.ok ())).1 = genTableC10
    ∧ (save_generation_to_site_db [] "uk" "site-1" (.ok ())).2 = .ok () :=
  c10_non_nl_raises genTableC10 [] "uk" "site-1" (.ok ())
    (by simp [genTableC10]) (by simp) rfl

end NesoSolar
